import Mathlib

/-! Verification of the Oboe player JNI bridge.

Shallow embedding of `app/src/main/cpp/oboe_player.cpp`.

* The Oboe audio library is third-party code: it is a parameter `Oboe ω σ` whose
  fields are the library calls the bridge makes. `ω` is the state of the audio
  device layer (what `openStream` and `close` act on) and `σ` the state of one
  open `AudioStream`. Getters are observations of `σ`; `requestStart`,
  `requestStop`, `write` and `setBufferSizeInFrames` are transitions of `σ`.
* A `jlong` handle is the address of an `OboePlayer` record on the native heap;
  address `0` is the null pointer. Dereferencing an address that is not on the
  heap is undefined behaviour and is the `none` result of an operation.
* Every library call the bridge makes is appended to `World.calls`, so that
  "no call is made" and "this call is made with that argument" are statements
  about the world after an operation.
* `jint`/`int32_t` values are integers; the arithmetic that can leave the 32-bit
  range is wrapped with `wrap32`.
-/

namespace OboePlayerJNI

/-! ## Machine integers -/

/-- Two's-complement reduction of an integer to the signed 32-bit range. -/
def wrap32 (x : Int) : Int := (x + 2147483648) % 4294967296 - 2147483648

/-- The value fits a `jint` / `int32_t`. -/
def isInt32 (x : Int) : Prop := -2147483648 ≤ x ∧ x ≤ 2147483647

instance (x : Int) : Decidable (isInt32 x) := by
  unfold isInt32
  exact inferInstance

/-! ## The parts of the Oboe API the bridge uses -/

inductive AudioFormat where
  | Unspecified
  | I16
  | I24
  | I32
deriving DecidableEq, Repr

inductive Direction where
  | Output
  | Input
deriving DecidableEq, Repr

inductive PerformanceMode where
  | None
  | PowerSaving
  | LowLatency
deriving DecidableEq, Repr

inductive SharingMode where
  | Exclusive
  | Shared
deriving DecidableEq, Repr

inductive Usage where
  | Media
  | VoiceCommunication
  | Game
deriving DecidableEq, Repr

inductive ContentType where
  | Speech
  | Music
  | Movie
deriving DecidableEq, Repr

/-- The `oboe::Result` of a call: `OK`, or one of the library's error codes. -/
inductive Result where
  | OK
  | Error (code : Int)
deriving DecidableEq, Repr

/-- The `oboe::ResultWithValue<int32_t>` of a call: it converts to `true` exactly
when it carries a value. -/
inductive ResultWithValue where
  | value (v : Int)
  | error (code : Int)
deriving DecidableEq, Repr

/-- The numeric value `static_cast<jint>` gives a sharing mode (library enum values). -/
def SharingMode.toJint : SharingMode → Int
  | .Exclusive => 0
  | .Shared => 1

/-- The numeric value `static_cast<jint>` gives a performance mode (library enum values). -/
def PerformanceMode.toJint : PerformanceMode → Int
  | .None => 10
  | .PowerSaving => 11
  | .LowLatency => 12

/-- The settings `openStream` puts on its `oboe::AudioStreamBuilder`. -/
structure AudioStreamBuilder where
  direction : Direction
  performanceMode : PerformanceMode
  sharingMode : SharingMode
  sampleRate : Int
  channelCount : Int
  usage : Usage
  contentType : ContentType
  format : AudioFormat
deriving DecidableEq, Repr

/-- The library as the bridge sees it. `openStream` returns the result code and
the value left in the caller's `shared_ptr` (`none` is the null pointer). -/
structure Oboe (ω σ : Type) where
  openStream : AudioStreamBuilder → ω → Result × Option σ × ω
  close : σ → ω → Result × ω
  requestStart : σ → Result × σ
  requestStop : σ → Result × σ
  /-- Arguments: the bytes from the buffer pointer to the end of the array,
  the frame count, the timeout in nanoseconds. -/
  write : σ → List Int → Int → Int → ResultWithValue × σ
  /-- Result code and the values left in `framePosition` and `timeNanos`. -/
  getTimestamp : σ → Result × Int × Int
  setBufferSizeInFrames : σ → Int → ResultWithValue × σ
  getBufferSizeInFrames : σ → Int
  getBufferCapacityInFrames : σ → Int
  getBytesPerFrame : σ → Int
  getSampleRate : σ → Int
  getChannelCount : σ → Int
  getFramesPerBurst : σ → Int
  getSharingMode : σ → SharingMode
  getPerformanceMode : σ → PerformanceMode

/-- One call of the bridge into the library (or the log), as recorded in the world. -/
inductive Call where
  | openStream (builder : AudioStreamBuilder)
  | close
  | requestStart
  | requestStop
  | write (bufferOffset numFrames timeoutNanoseconds : Int)
  | getTimestamp
  | setBufferSizeInFrames (requestedFrames : Int)
  | getBufferSizeInFrames
  | getBufferCapacityInFrames
  | getBytesPerFrame
  | getSampleRate
  | getChannelCount
  | getFramesPerBurst
  | getSharingMode
  | getPerformanceMode
  /-- A `shared_ptr` to the stream is dropped (`reset()` or the destructor of
  the record that holds it) without a library call. -/
  | dropRef
  | logWarn
deriving DecidableEq, Repr

/-! ## The bridge's data -/

/-- The record behind a handle: `struct OboePlayer`. -/
structure OboePlayer (σ : Type) where
  stream : Option σ := none
  bytesPerFrame : Int := 0
deriving DecidableEq, Repr

/-- The native side of the process: device layer, heap of player records, and
the calls made so far. -/
structure World (ω σ : Type) where
  device : ω
  heap : List (Nat × OboePlayer σ)
  calls : List Call
deriving DecidableEq, Repr

variable {ω σ : Type}

def World.log (w : World ω σ) (c : Call) : World ω σ :=
  { w with calls := w.calls ++ [c] }

/-- The record at an address, if the address is live. -/
def World.lookup (w : World ω σ) (addr : Nat) : Option (OboePlayer σ) :=
  w.heap.lookup addr

/-- An address that is neither null nor in use. -/
def freshAddr (heap : List (Nat × OboePlayer σ)) : Nat :=
  (heap.map Prod.fst).foldr max 0 + 1

/-- The expression `new OboePlayer()`: a default-initialised record at a fresh address. -/
def World.new (w : World ω σ) : Nat × World ω σ :=
  let addr := freshAddr w.heap
  (addr, { w with heap := (addr, ({} : OboePlayer σ)) :: w.heap })

/-- Write a record back through its pointer. -/
def World.store (w : World ω σ) (addr : Nat) (p : OboePlayer σ) : World ω σ :=
  { w with heap := w.heap.map (fun e => if e.1 = addr then (addr, p) else e) }

/-- Free the record at an address (the memory part of `delete player`). -/
def World.free (w : World ω σ) (addr : Nat) : World ω σ :=
  { w with heap := w.heap.filter (fun e => e.1 ≠ addr) }

/-- The statement `delete player`: the record's destructor drops its stream reference, if it
holds one, and the memory is freed. No library call is made. -/
def World.delete (w : World ω σ) (addr : Nat) (p : OboePlayer σ) : World ω σ :=
  match p.stream with
  | none => w.free addr
  | some _ => (w.log .dropRef).free addr

/-! ## The JNI environment -/

/-- What the bridge needs of `JNIEnv`: `GetByteArrayElements` gives the
elements of the array, or the null pointer. -/
structure JNIEnv where
  getByteArrayElements : List Int → Option (List Int)

/-- The JNI call `Set<Type>ArrayRegion(array, start, len, values)`: copies `len` values into
the array; a region that does not fit leaves the array as it is. -/
def setArrayRegion (array : List Int) (start len : Nat) (values : List Int) : List Int :=
  if start + len ≤ array.length then
    array.take start ++ values.take len ++ array.drop (start + len)
  else array

/-! ## The bridge -/

def formatFromBits (bits : Int) : AudioFormat :=
  if bits = 16 then .I16
  else if bits = 24 then .I24
  else if bits = 32 then .I32
  else .Unspecified

/-- The builder as `openStream` configures it before the first attempt. -/
def makeBuilder (sampleRate channelCount bits : Int) : AudioStreamBuilder :=
  { direction := .Output
    performanceMode := .LowLatency
    sharingMode := .Exclusive
    sampleRate := sampleRate
    channelCount := channelCount
    usage := .Media
    contentType := .Music
    format := formatFromBits bits }

/-- The function `openStream(player, ...)`. The record is passed by pointer in the source;
here it goes in and comes out. The world carries the device state and calls. -/
def openStream (lib : Oboe ω σ) (w : World ω σ) (player : OboePlayer σ)
    (sampleRate channelCount bits preferredBufferFrames : Int) :
    Bool × OboePlayer σ × World ω σ :=
  let builder := makeBuilder sampleRate channelCount bits
  let r1 := lib.openStream builder w.device
  let w1 := ({ w with device := r1.2.2 } : World ω σ).log (.openStream builder)
  let attempt : Result × Option σ × World ω σ :=
    if r1.1 ≠ Result.OK then
      let builder2 := { builder with sharingMode := SharingMode.Shared }
      let r2 := lib.openStream builder2 w1.device
      (r2.1, r2.2.1, ({ w1 with device := r2.2.2 } : World ω σ).log (.openStream builder2))
    else (r1.1, r1.2.1, w1)
  let result := attempt.1
  let w2 := attempt.2.2
  match attempt.2.1 with
  | none => (false, { player with stream := none }, w2.log .logWarn)
  | some s =>
    if result ≠ Result.OK then
      (false, { player with stream := some s }, w2.log .logWarn)
    else
      let sized : σ × World ω σ :=
        if preferredBufferFrames > 0 then
          let capacity := lib.getBufferCapacityInFrames s
          let target := min preferredBufferFrames capacity
          ((lib.setBufferSizeInFrames s target).2,
            (w2.log .getBufferCapacityInFrames).log (.setBufferSizeInFrames target))
        else (s, w2)
      let bytesPerFrame := lib.getBytesPerFrame sized.1
      (decide (bytesPerFrame > 0),
        { stream := some sized.1, bytesPerFrame := bytesPerFrame },
        sized.2.log .getBytesPerFrame)

/-- The operation `nativeCreate`: the handle (`0` for failure) and the world afterwards. -/
def nativeCreate (lib : Oboe ω σ) (w : World ω σ)
    (sampleRate channelCount bits preferredBufferFrames : Int) : Nat × World ω σ :=
  if sampleRate ≤ 0 ∨ channelCount ≤ 0 then (0, w)
  else
    let a := w.new
    let o := openStream lib a.2 {} sampleRate channelCount bits preferredBufferFrames
    if o.1 = false then (0, o.2.2.delete a.1 o.2.1)
    else (a.1, o.2.2.store a.1 o.2.1)

/-- The operation `nativeStart`: success flag and the world afterwards. -/
def nativeStart (lib : Oboe ω σ) (w : World ω σ) (handle : Nat) :
    Option (Bool × World ω σ) :=
  if handle = 0 then some (false, w)
  else
    match w.lookup handle with
    | none => none
    | some player =>
      match player.stream with
      | none => some (false, w)
      | some s =>
        let r := lib.requestStart s
        some (decide (r.1 = Result.OK),
          (w.store handle { player with stream := some r.2 }).log .requestStart)

/-- The operation `nativeWrite`: `data` is the Java byte array (`none` is a null reference). -/
def nativeWrite (lib : Oboe ω σ) (env : JNIEnv) (w : World ω σ) (handle : Nat)
    (data : Option (List Int)) (offset size : Int) : Option (Int × World ω σ) :=
  if handle = 0 then some (-1, w)
  else
    match w.lookup handle with
    | none => none
    | some player =>
      match player.stream with
      | none => some (-1, w)
      | some s =>
        if player.bytesPerFrame ≤ 0 then some (-1, w)
        else
          match data with
          | none => some (-1, w)
          | some bytes =>
            if size ≤ 0 then some (-1, w)
            else if offset < 0 then some (-1, w)
            else
              let dataLen : Int := bytes.length
              if wrap32 (offset + size) > dataLen then some (-1, w)
              else
                match env.getByteArrayElements bytes with
                | none => some (-1, w)
                | some raw =>
                  -- `bytesToWrite = frames * bytesPerFrame` is computed and never used
                  let frames := wrap32 (Int.tdiv size player.bytesPerFrame)
                  let buffer := raw.drop offset.toNat
                  let r := lib.write s buffer frames 1000000000
                  let w1 := (w.store handle { player with stream := some r.2 }).log
                    (.write offset frames 1000000000)
                  match r.1 with
                  | .error _ => some (-1, w1)
                  | .value v => some (wrap32 (v * player.bytesPerFrame), w1)

/-- The operation `nativeGetTimestamp`: `outTimestamp` is the Java long array (`none` is a
null reference); the array after the call is part of the result. -/
def nativeGetTimestamp (lib : Oboe ω σ) (w : World ω σ) (handle : Nat)
    (outTimestamp : Option (List Int)) :
    Option (Bool × Option (List Int) × World ω σ) :=
  if handle = 0 then some (false, outTimestamp, w)
  else
    match w.lookup handle with
    | none => none
    | some player =>
      match player.stream with
      | none => some (false, outTimestamp, w)
      | some s =>
        match outTimestamp with
        | none => some (false, none, w)
        | some out =>
          if out.length < 2 then some (false, some out, w)
          else
            let r := lib.getTimestamp s
            let w1 := w.log .getTimestamp
            if r.1 ≠ Result.OK then some (false, some out, w1)
            else
              let values := [r.2.1, r.2.2]
              some (true, some (setArrayRegion out 0 2 values), w1)

/-- The operation `nativeGetStreamInfo`: `outInfo` is the Java int array. -/
def nativeGetStreamInfo (lib : Oboe ω σ) (w : World ω σ) (handle : Nat)
    (outInfo : Option (List Int)) :
    Option (Bool × Option (List Int) × World ω σ) :=
  if handle = 0 then some (false, outInfo, w)
  else
    match w.lookup handle with
    | none => none
    | some player =>
      match player.stream with
      | none => some (false, outInfo, w)
      | some s =>
        match outInfo with
        | none => some (false, none, w)
        | some out =>
          if out.length < 7 then some (false, some out, w)
          else
            let values := [
              lib.getSampleRate s,
              lib.getChannelCount s,
              lib.getBufferSizeInFrames s,
              lib.getBufferCapacityInFrames s,
              lib.getFramesPerBurst s,
              (lib.getSharingMode s).toJint,
              (lib.getPerformanceMode s).toJint ]
            let w1 := { w with calls := w.calls ++
              [.getSampleRate, .getChannelCount, .getBufferSizeInFrames,
               .getBufferCapacityInFrames, .getFramesPerBurst, .getSharingMode,
               .getPerformanceMode] }
            some (true, some (setArrayRegion out 0 7 values), w1)

/-- The operation `nativeSetBufferSizeInFrames`: the applied size or `-1`. -/
def nativeSetBufferSizeInFrames (lib : Oboe ω σ) (w : World ω σ) (handle : Nat)
    (frames : Int) : Option (Int × World ω σ) :=
  if handle = 0 then some (-1, w)
  else
    match w.lookup handle with
    | none => none
    | some player =>
      match player.stream with
      | none => some (-1, w)
      | some s =>
        if frames < 0 then some (-1, w)
        else if frames = 0 then
          some (lib.getBufferSizeInFrames s, w.log .getBufferSizeInFrames)
        else
          let capacity := lib.getBufferCapacityInFrames s
          let target := min frames capacity
          let r := lib.setBufferSizeInFrames s target
          let w1 := ((w.store handle { player with stream := some r.2 }).log
            .getBufferCapacityInFrames).log (.setBufferSizeInFrames target)
          match r.1 with
          | .error _ => some (-1, w1.log .logWarn)
          | .value v => some (v, w1)

/-- The operation `nativeStop`: the world afterwards. -/
def nativeStop (lib : Oboe ω σ) (w : World ω σ) (handle : Nat) : Option (World ω σ) :=
  if handle = 0 then some w
  else
    match w.lookup handle with
    | none => none
    | some player =>
      match player.stream with
      | none => some w
      | some s =>
        let r := lib.requestStop s
        some ((w.store handle { player with stream := some r.2 }).log .requestStop)

/-- The operation `nativeRelease`: the world afterwards. -/
def nativeRelease (lib : Oboe ω σ) (w : World ω σ) (handle : Nat) : Option (World ω σ) :=
  if handle = 0 then some w
  else
    match w.lookup handle with
    | none => none
    | some player =>
      match player.stream with
      | none => some (w.delete handle { player with stream := none })
      | some s =>
        let r := lib.close s w.device
        let w1 := (({ w with device := r.2 } : World ω σ).log .close).log .dropRef
        some (w1.delete handle { player with stream := none })

/-! ## A simulated library

A small deterministic instance of `Oboe`, used to run the bridge on concrete
inputs. The general theorems below quantify over every `Oboe ω σ`. -/

/-- State of a simulated stream. -/
structure SimStream where
  sampleRate : Int
  channelCount : Int
  format : AudioFormat
  sharingMode : SharingMode
  bufferSize : Int
  bufferCapacity : Int
  framesPerBurst : Int
  started : Bool
  framesWritten : Int
deriving DecidableEq, Repr

/-- State of the simulated device layer. -/
structure SimDevice where
  exclusiveAvailable : Bool
  sharedAvailable : Bool
  openStreams : Nat
deriving DecidableEq, Repr

/-- Sample size of a format in bytes; an unspecified format has size `0`. -/
def simBytesPerSample : AudioFormat → Int
  | .Unspecified => 0
  | .I16 => 2
  | .I24 => 3
  | .I32 => 4

/-- The simulated library. A stream keeps the format it was asked for, has a
capacity of 1000 frames and bursts of 96 frames; a buffer size request is brought
into the range from one burst to the capacity; a started stream accepts every
frame offered and a stopped one refuses the write. -/
def simOboe : Oboe SimDevice SimStream where
  openStream := fun b d =>
    let available := match b.sharingMode with
      | .Exclusive => d.exclusiveAvailable
      | .Shared => d.sharedAvailable
    if available then
      (Result.OK,
        some { sampleRate := b.sampleRate, channelCount := b.channelCount,
               format := b.format, sharingMode := b.sharingMode, bufferSize := 192,
               bufferCapacity := 1000, framesPerBurst := 96, started := false,
               framesWritten := 0 },
        { d with openStreams := d.openStreams + 1 })
    else (Result.Error (-889), none, d)
  close := fun _ d => (Result.OK, { d with openStreams := d.openStreams - 1 })
  requestStart := fun s => (Result.OK, { s with started := true })
  requestStop := fun s => (Result.OK, { s with started := false })
  write := fun s _ numFrames _ =>
    if s.started then
      (ResultWithValue.value numFrames, { s with framesWritten := s.framesWritten + numFrames })
    else (ResultWithValue.error (-898), s)
  getTimestamp := fun s =>
    if s.started then (Result.OK, s.framesWritten, 1000000 * s.framesWritten)
    else (Result.Error (-898), 0, 0)
  setBufferSizeInFrames := fun s n =>
    let applied := max s.framesPerBurst (min n s.bufferCapacity)
    (ResultWithValue.value applied, { s with bufferSize := applied })
  getBufferSizeInFrames := fun s => s.bufferSize
  getBufferCapacityInFrames := fun s => s.bufferCapacity
  getBytesPerFrame := fun s => s.channelCount * simBytesPerSample s.format
  getSampleRate := fun s => s.sampleRate
  getChannelCount := fun s => s.channelCount
  getFramesPerBurst := fun s => s.framesPerBurst
  getSharingMode := fun s => s.sharingMode
  getPerformanceMode := fun _ => PerformanceMode.LowLatency

/-- An idle device with no handle created yet. -/
def simWorld : World SimDevice SimStream :=
  { device := { exclusiveAvailable := true, sharedAvailable := true, openStreams := 0 }
    heap := []
    calls := [] }

/-- A stereo 16-bit stream at 48 kHz, started. -/
def simStream : SimStream :=
  { sampleRate := 48000, channelCount := 2, format := .I16, sharingMode := .Exclusive,
    bufferSize := 192, bufferCapacity := 1000, framesPerBurst := 96, started := true,
    framesWritten := 0 }

/-- A world with one live handle, `1`, on `simStream`. -/
def simWorldPlaying : World SimDevice SimStream :=
  { device := { exclusiveAvailable := false, sharedAvailable := true, openStreams := 1 }
    heap := [(1, { stream := some simStream, bytesPerFrame := 4 })]
    calls := [] }

/-- A world with one live handle, `1`, whose record holds no stream. -/
def simWorldNullStream : World SimDevice SimStream :=
  { device := { exclusiveAvailable := true, sharedAvailable := true, openStreams := 0 }
    heap := [(1, { stream := none, bytesPerFrame := 0 })]
    calls := [] }

/-- A world with one live handle, `1`, on a stream that has not been started. -/
def simWorldStopped : World SimDevice SimStream :=
  { device := { exclusiveAvailable := false, sharedAvailable := true, openStreams := 1 }
    heap := [(1, { stream := some { simStream with started := false }, bytesPerFrame := 4 })]
    calls := [] }

/-- The JNI environment in which array elements are always available. -/
def simEnv : JNIEnv where
  getByteArrayElements := fun bytes => some bytes

/-- The stream as lines 51-55 of `openStream` leave it: with a positive
preferred size, after the buffer size request for that size clamped to the
capacity; otherwise untouched. -/
def withPreferredBuffer (lib : Oboe ω σ) (preferredBufferFrames : Int) (s : σ) : σ :=
  if preferredBufferFrames > 0 then
    (lib.setBufferSizeInFrames s
      (min preferredBufferFrames (lib.getBufferCapacityInFrames s))).2
  else s

/-- The open attempts among a list of calls, in order. -/
def openAttempts : List Call → List AudioStreamBuilder
  | [] => []
  | .openStream b :: cs => b :: openAttempts cs
  | _ :: cs => openAttempts cs

/-- The buffer sizes requested among a list of calls, in order. -/
def bufferSizeRequests : List Call → List Int
  | [] => []
  | .setBufferSizeInFrames n :: cs => n :: bufferSizeRequests cs
  | _ :: cs => bufferSizeRequests cs

/-- The calls made between an earlier world and a later one. -/
def World.callsSince (w' w : World ω σ) : List Call :=
  w'.calls.drop w.calls.length

/-! ## Basic facts -/

theorem wrap32_of_isInt32 {x : Int} (h : isInt32 x) : wrap32 x = x := by
  unfold isInt32 at h
  unfold wrap32
  omega

theorem wrap32_neg_of_overflow {x : Int} (h1 : 2147483647 < x) (h2 : x ≤ 4294967294) :
    wrap32 x < 0 := by
  unfold wrap32
  omega

@[simp] theorem World.log_heap (w : World ω σ) (c : Call) : (w.log c).heap = w.heap := rfl

@[simp] theorem World.log_device (w : World ω σ) (c : Call) : (w.log c).device = w.device := rfl

@[simp] theorem World.log_calls (w : World ω σ) (c : Call) :
    (w.log c).calls = w.calls ++ [c] := rfl

theorem lt_freshAddr (heap : List (Nat × OboePlayer σ)) :
    ∀ e ∈ heap, e.1 < freshAddr heap := by
  induction heap with
  | nil => intro e he; cases he
  | cons x xs ih =>
    intro e he
    have hx : freshAddr (x :: xs) = max x.1 ((xs.map Prod.fst).foldr max 0) + 1 := rfl
    rcases List.mem_cons.mp he with rfl | hmem
    · rw [hx]; omega
    · have := ih e hmem
      unfold freshAddr at this
      rw [hx]; omega

theorem freshAddr_pos (heap : List (Nat × OboePlayer σ)) : freshAddr heap ≠ 0 := by
  unfold freshAddr
  omega

theorem filter_freshAddr (heap : List (Nat × OboePlayer σ)) :
    heap.filter (fun e => e.1 ≠ freshAddr heap) = heap := by
  apply List.filter_eq_self.mpr
  intro e he
  have := lt_freshAddr heap e he
  simp
  omega

/-- Freeing the record that `new` has just allocated restores the heap. -/
theorem free_new_heap (w w2 : World ω σ) (h : w2.heap = w.new.2.heap) :
    (w2.free w.new.1).heap = w.heap := by
  unfold World.free
  simp only [h, World.new]
  rw [List.filter_cons]
  simp only [ne_eq, not_true_eq_false, decide_False, Bool.false_eq_true, if_false]
  exact filter_freshAddr w.heap

theorem delete_new_heap (w w2 : World ω σ) (p : OboePlayer σ) (h : w2.heap = w.new.2.heap) :
    (w2.delete w.new.1 p).heap = w.heap := by
  unfold World.delete
  split
  · exact free_new_heap w w2 h
  · exact free_new_heap w _ (by simpa using h)

theorem lookup_store_new (w w2 : World ω σ) (p : OboePlayer σ) (h : w2.heap = w.new.2.heap) :
    (w2.store w.new.1 p).lookup w.new.1 = some p := by
  unfold World.store World.lookup
  simp [h, World.new, List.lookup]

/-! ## Facts about `openStream` -/

theorem openStream_heap (lib : Oboe ω σ) (w : World ω σ) (player : OboePlayer σ)
    (sampleRate channelCount bits preferredBufferFrames : Int) :
    (openStream lib w player sampleRate channelCount bits preferredBufferFrames).2.2.heap
      = w.heap := by
  unfold openStream
  by_cases hp : preferredBufferFrames > 0 <;>
    by_cases h1 : (lib.openStream (makeBuilder sampleRate channelCount bits) w.device).1
      = Result.OK <;>
    simp only [hp, h1, ne_eq, not_true_eq_false, not_false_eq_true, if_true, if_false] <;>
    split <;> (try split_ifs) <;> simp

/-- A successful `openStream` leaves a stream in the record and a positive frame size. -/
theorem openStream_true (lib : Oboe ω σ) (w : World ω σ) (player : OboePlayer σ)
    (sampleRate channelCount bits preferredBufferFrames : Int)
    (h : (openStream lib w player sampleRate channelCount bits preferredBufferFrames).1 = true) :
    ∃ s, (openStream lib w player sampleRate channelCount bits preferredBufferFrames).2.1.stream
        = some s ∧
      0 < (openStream lib w player sampleRate channelCount bits
        preferredBufferFrames).2.1.bytesPerFrame := by
  unfold openStream at h ⊢
  by_cases hp : preferredBufferFrames > 0 <;>
    by_cases h1 : (lib.openStream (makeBuilder sampleRate channelCount bits) w.device).1
      = Result.OK <;>
    simp only [hp, h1, ne_eq, not_true_eq_false, not_false_eq_true, if_true, if_false] at h ⊢ <;>
    split at h <;> (try split_ifs at h) <;> simp_all

theorem openAttempts_append (xs ys : List Call) :
    openAttempts (xs ++ ys) = openAttempts xs ++ openAttempts ys := by
  induction xs with
  | nil => rfl
  | cons x xs ih => cases x <;> simp [openAttempts, ih]

theorem drop_calls_append (xs ys : List Call) : (xs ++ ys).drop xs.length = ys := by
  simp

/-- The calls `openStream` makes: the open attempt(s), then calls none of which
opens or closes a stream. -/
theorem openStream_calls (lib : Oboe ω σ) (w : World ω σ) (player : OboePlayer σ)
    (sampleRate channelCount bits preferredBufferFrames : Int) :
    ∃ rest : List Call,
      (openStream lib w player sampleRate channelCount bits preferredBufferFrames).2.2.calls
        = w.calls ++
          ((if (lib.openStream (makeBuilder sampleRate channelCount bits) w.device).1 = Result.OK
            then [Call.openStream (makeBuilder sampleRate channelCount bits)]
            else [Call.openStream (makeBuilder sampleRate channelCount bits),
                  Call.openStream { makeBuilder sampleRate channelCount bits with
                    sharingMode := SharingMode.Shared }]) ++ rest) ∧
      openAttempts rest = [] ∧ Call.close ∉ rest := by
  unfold openStream
  by_cases hp : preferredBufferFrames > 0 <;>
    by_cases h1 : (lib.openStream (makeBuilder sampleRate channelCount bits) w.device).1
      = Result.OK <;>
    simp only [hp, h1, ne_eq, not_true_eq_false, not_false_eq_true, if_true, if_false] <;>
    split <;> (try split_ifs) <;>
    simp only [World.log_calls, List.append_assoc, List.append_cancel_left_eq,
      List.singleton_append, List.cons_append, List.nil_append, List.cons.injEq, true_and] <;>
    refine ⟨_, rfl, ?_, ?_⟩ <;> simp [openAttempts]

/-! ## Creation -/

@[simp] theorem World.store_calls (w : World ω σ) (addr : Nat) (p : OboePlayer σ) :
    (w.store addr p).calls = w.calls := rfl

@[simp] theorem World.store_device (w : World ω σ) (addr : Nat) (p : OboePlayer σ) :
    (w.store addr p).device = w.device := rfl

@[simp] theorem World.free_calls (w : World ω σ) (addr : Nat) :
    (w.free addr).calls = w.calls := rfl

@[simp] theorem World.free_device (w : World ω σ) (addr : Nat) :
    (w.free addr).device = w.device := rfl

theorem World.delete_calls (w : World ω σ) (addr : Nat) (p : OboePlayer σ) :
    (w.delete addr p).calls = w.calls ∨ (w.delete addr p).calls = w.calls ++ [Call.dropRef] := by
  unfold World.delete
  split
  · exact Or.inl rfl
  · exact Or.inr rfl

@[simp] theorem World.delete_device (w : World ω σ) (addr : Nat) (p : OboePlayer σ) :
    (w.delete addr p).device = w.device := by
  unfold World.delete
  split <;> rfl

/-- The calls `nativeCreate` makes once its arguments are accepted: those of
`openStream`, and possibly the drop of the stream reference on failure. -/
theorem nativeCreate_calls (lib : Oboe ω σ) (w : World ω σ)
    (sampleRate channelCount bits preferredBufferFrames : Int)
    (hguard : ¬ (sampleRate ≤ 0 ∨ channelCount ≤ 0)) :
    ∃ tail : List Call,
      (nativeCreate lib w sampleRate channelCount bits preferredBufferFrames).2.calls
        = (openStream lib w.new.2 {} sampleRate channelCount bits
            preferredBufferFrames).2.2.calls ++ tail ∧
      (tail = [] ∨ tail = [Call.dropRef]) := by
  unfold nativeCreate
  rw [if_neg hguard]
  simp only []
  split_ifs
  · rcases World.delete_calls (openStream lib w.new.2 {} sampleRate channelCount bits
        preferredBufferFrames).2.2 w.new.1 (openStream lib w.new.2 {} sampleRate channelCount
        bits preferredBufferFrames).2.1 with h | h
    · exact ⟨[], by simpa using h, Or.inl rfl⟩
    · exact ⟨[Call.dropRef], h, Or.inr rfl⟩
  · exact ⟨[], by simp, Or.inl rfl⟩

/-- C3: with a non-positive sample rate or channel count `nativeCreate` returns
`0` and leaves the world as it was: no record is allocated, no call is made. -/
theorem nativeCreate_rejects_nonpositive (lib : Oboe ω σ) (w : World ω σ)
    (sampleRate channelCount bits preferredBufferFrames : Int)
    (h : sampleRate ≤ 0 ∨ channelCount ≤ 0) :
    nativeCreate lib w sampleRate channelCount bits preferredBufferFrames = (0, w) := by
  unfold nativeCreate
  rw [if_pos h]

theorem nativeCreate_rejects_nonpositive_witness :
    ((0 : Int) ≤ 0 ∨ (2 : Int) ≤ 0) ∧ nativeCreate simOboe simWorld 0 2 16 0 = (0, simWorld) :=
  ⟨by decide, nativeCreate_rejects_nonpositive simOboe simWorld 0 2 16 0 (by decide)⟩

/-- C4: for a positive sample rate and channel count and any library,
`nativeCreate` returns `0`, or a non-zero handle to a live record that holds a
stream and a positive `bytesPerFrame`. -/
theorem nativeCreate_handle_valid (lib : Oboe ω σ) (w : World ω σ)
    (sampleRate channelCount bits preferredBufferFrames : Int)
    (hsr : 0 < sampleRate) (hcc : 0 < channelCount) :
    (nativeCreate lib w sampleRate channelCount bits preferredBufferFrames).1 = 0 ∨
    ((nativeCreate lib w sampleRate channelCount bits preferredBufferFrames).1 ≠ 0 ∧
      ∃ player s,
        (nativeCreate lib w sampleRate channelCount bits preferredBufferFrames).2.lookup
          (nativeCreate lib w sampleRate channelCount bits preferredBufferFrames).1
            = some player ∧
        player.stream = some s ∧ 0 < player.bytesPerFrame) := by
  have hguard : ¬ (sampleRate ≤ 0 ∨ channelCount ≤ 0) := by omega
  unfold nativeCreate
  rw [if_neg hguard]
  simp only []
  split_ifs with hfail
  · exact Or.inl rfl
  · right
    have hok : (openStream lib w.new.2 {} sampleRate channelCount bits
        preferredBufferFrames).1 = true := by simpa using hfail
    obtain ⟨s, hs, hb⟩ := openStream_true lib w.new.2 {} sampleRate channelCount bits
      preferredBufferFrames hok
    refine ⟨freshAddr_pos w.heap, _, s, ?_, hs, hb⟩
    exact lookup_store_new w _ _ (openStream_heap lib w.new.2 {} sampleRate channelCount bits
      preferredBufferFrames)

theorem nativeCreate_handle_valid_witness :
    (0 : Int) < 48000 ∧ (0 : Int) < 2 ∧
    ((nativeCreate simOboe simWorld 48000 2 16 0).1 = 0 ∨
    ((nativeCreate simOboe simWorld 48000 2 16 0).1 ≠ 0 ∧
      ∃ player s,
        (nativeCreate simOboe simWorld 48000 2 16 0).2.lookup
          (nativeCreate simOboe simWorld 48000 2 16 0).1 = some player ∧
        player.stream = some s ∧ 0 < player.bytesPerFrame)) :=
  ⟨by decide, by decide,
    nativeCreate_handle_valid simOboe simWorld 48000 2 16 0 (by decide) (by decide)⟩

/-- The scenario of the specification: `Create(48000, 2, 16, 0)` on an idle
device gives the handle `1` with a frame size of 4 bytes. -/
theorem nativeCreate_scenario :
    (nativeCreate simOboe simWorld 48000 2 16 0).1 = 1 ∧
    ((nativeCreate simOboe simWorld 48000 2 16 0).2.lookup 1).map (fun p => p.bytesPerFrame)
      = some 4 := by
  decide

/-- What `openStream` returns, in terms of the library's answers: `first` to the
attempt in exclusive mode on the device as it is, `second` to the attempt in
shared mode on the device as the first attempt left it. The answer that
counts is the first when its result is `OK` and the second otherwise. -/
theorem openStream_outcome (lib : Oboe ω σ) (w : World ω σ) (player : OboePlayer σ)
    (sampleRate channelCount bits preferredBufferFrames : Int)
    (first second : Result × Option σ × ω)
    (hfirst : first = lib.openStream (makeBuilder sampleRate channelCount bits) w.device)
    (hsecond : second = lib.openStream
      { makeBuilder sampleRate channelCount bits with sharingMode := SharingMode.Shared }
      first.2.2) :
    (openStream lib w player sampleRate channelCount bits preferredBufferFrames).2.2.device
      = (if first.1 = Result.OK then first else second).2.2 ∧
    (∀ s, (if first.1 = Result.OK then first else second).1 = Result.OK →
      (if first.1 = Result.OK then first else second).2.1 = some s →
      (openStream lib w player sampleRate channelCount bits preferredBufferFrames).1
        = decide (0 < lib.getBytesPerFrame (withPreferredBuffer lib preferredBufferFrames s)) ∧
      (openStream lib w player sampleRate channelCount bits preferredBufferFrames).2.1
        = { stream := some (withPreferredBuffer lib preferredBufferFrames s),
            bytesPerFrame :=
              lib.getBytesPerFrame (withPreferredBuffer lib preferredBufferFrames s) }) ∧
    ((if first.1 = Result.OK then first else second).1 ≠ Result.OK ∨
      (if first.1 = Result.OK then first else second).2.1 = none →
      (openStream lib w player sampleRate channelCount bits preferredBufferFrames).1 = false) := by
  subst hsecond
  subst hfirst
  unfold openStream withPreferredBuffer
  by_cases hp : preferredBufferFrames > 0 <;>
    by_cases h1 : (lib.openStream (makeBuilder sampleRate channelCount bits) w.device).1
      = Result.OK <;>
    simp only [hp, h1, ne_eq, not_true_eq_false, not_false_eq_true, if_true, if_false,
      World.log_device] <;>
    split <;> (try split_ifs) <;> simp_all

/-- C10: `nativeCreate` with positive rate and channel count asks the library
to open a stream once, in exclusive mode, when that attempt is `OK`, and
otherwise exactly twice, the second time with the same builder in shared mode
on the device as the first attempt left it. The device afterwards is the one
the last attempt made leaves. The result is a handle exactly when the answer
that counts (the first if `OK`, else the second) is `OK` with a stream of
positive frame size, and the record then holds that stream; when the second
attempt fails as well the result is `0`. -/
theorem nativeCreate_open_attempts (lib : Oboe ω σ) (w : World ω σ)
    (sampleRate channelCount bits preferredBufferFrames : Int)
    (first second : Result × Option σ × ω)
    (hsr : 0 < sampleRate) (hcc : 0 < channelCount)
    (hfirst : first = lib.openStream (makeBuilder sampleRate channelCount bits) w.device)
    (hsecond : second = lib.openStream
      { makeBuilder sampleRate channelCount bits with sharingMode := SharingMode.Shared }
      first.2.2) :
    (makeBuilder sampleRate channelCount bits).sharingMode = SharingMode.Exclusive ∧
    openAttempts ((nativeCreate lib w sampleRate channelCount bits
        preferredBufferFrames).2.callsSince w)
      = (if first.1 = Result.OK
          then [makeBuilder sampleRate channelCount bits]
          else [makeBuilder sampleRate channelCount bits,
                { makeBuilder sampleRate channelCount bits with
                  sharingMode := SharingMode.Shared }]) ∧
    (nativeCreate lib w sampleRate channelCount bits preferredBufferFrames).2.device
      = (if first.1 = Result.OK then first else second).2.2 ∧
    ((nativeCreate lib w sampleRate channelCount bits preferredBufferFrames).1 ≠ 0 ↔
      (if first.1 = Result.OK then first else second).1 = Result.OK ∧
      ∃ s, (if first.1 = Result.OK then first else second).2.1 = some s ∧
        0 < lib.getBytesPerFrame (withPreferredBuffer lib preferredBufferFrames s)) ∧
    (∀ s, (if first.1 = Result.OK then first else second).2.1 = some s →
      (nativeCreate lib w sampleRate channelCount bits preferredBufferFrames).1 ≠ 0 →
      (nativeCreate lib w sampleRate channelCount bits preferredBufferFrames).2.lookup
        (nativeCreate lib w sampleRate channelCount bits preferredBufferFrames).1
        = some { stream := some (withPreferredBuffer lib preferredBufferFrames s),
                 bytesPerFrame :=
                   lib.getBytesPerFrame (withPreferredBuffer lib preferredBufferFrames s) }) ∧
    (first.1 ≠ Result.OK → second.1 ≠ Result.OK →
      (nativeCreate lib w sampleRate channelCount bits preferredBufferFrames).1 = 0) := by
  have hguard : ¬ (sampleRate ≤ 0 ∨ channelCount ≤ 0) := by omega
  have hd : w.new.2.device = w.device := rfl
  obtain ⟨hdev, hok, hbad⟩ := openStream_outcome lib w.new.2 {} sampleRate channelCount bits
    preferredBufferFrames first second (by rw [hd]; exact hfirst) hsecond
  have hheap := openStream_heap lib w.new.2 {} sampleRate channelCount bits
    preferredBufferFrames
  -- the result and the world of `nativeCreate` in terms of `openStream`
  have hres : (nativeCreate lib w sampleRate channelCount bits preferredBufferFrames).1
      = if (openStream lib w.new.2 {} sampleRate channelCount bits
          preferredBufferFrames).1 = false then 0 else w.new.1 := by
    unfold nativeCreate
    rw [if_neg hguard]
    simp only []
    split_ifs <;> rfl
  have hdevice : (nativeCreate lib w sampleRate channelCount bits
      preferredBufferFrames).2.device
      = (openStream lib w.new.2 {} sampleRate channelCount bits
          preferredBufferFrames).2.2.device := by
    unfold nativeCreate
    rw [if_neg hguard]
    simp only []
    split_ifs <;> simp
  have hnew : w.new.1 ≠ 0 := freshAddr_pos w.heap
  have hiff : (nativeCreate lib w sampleRate channelCount bits preferredBufferFrames).1 ≠ 0 ↔
      (openStream lib w.new.2 {} sampleRate channelCount bits
        preferredBufferFrames).1 = true := by
    rw [hres]
    split_ifs with hf
    · simp [hf]
    · simp only [ne_eq, hnew, not_false_eq_true, true_iff]
      simpa using hf
  refine ⟨rfl, ?_, ?_, ?_, ?_, ?_⟩
  · obtain ⟨rest, hcalls, hrest, -⟩ := openStream_calls lib w.new.2 {} sampleRate channelCount
      bits preferredBufferFrames
    obtain ⟨tail, hmade, htail⟩ := nativeCreate_calls lib w sampleRate channelCount bits
      preferredBufferFrames hguard
    have hw : w.new.2.calls = w.calls := rfl
    rw [hw, hd, ← hfirst] at hcalls
    have htail0 : openAttempts tail = [] := by
      rcases htail with rfl | rfl <;> rfl
    unfold World.callsSince
    rw [hmade, hcalls]
    simp only [List.append_assoc, List.drop_left, openAttempts_append, hrest, htail0,
      List.append_nil]
    split_ifs <;> rfl
  · rw [hdevice, hdev]
  · rw [hiff]
    constructor
    · intro htrue
      by_cases hr : (if first.1 = Result.OK then first else second).1 = Result.OK
      · cases hst : (if first.1 = Result.OK then first else second).2.1 with
        | none =>
          have := hbad (Or.inr hst)
          rw [htrue] at this
          cases this
        | some s =>
          obtain ⟨h1, -⟩ := hok s hr hst
          rw [htrue] at h1
          exact ⟨hr, s, rfl, of_decide_eq_true h1.symm⟩
      · have := hbad (Or.inl hr)
        rw [htrue] at this
        cases this
    · rintro ⟨hr, s, hst, hpos⟩
      obtain ⟨h1, -⟩ := hok s hr hst
      rw [h1]
      exact decide_eq_true hpos
  · intro s hst hne
    have htrue := hiff.mp hne
    have hr : (if first.1 = Result.OK then first else second).1 = Result.OK := by
      by_contra hr
      have := hbad (Or.inl hr)
      rw [htrue] at this
      cases this
    obtain ⟨-, h2⟩ := hok s hr hst
    have hval : (nativeCreate lib w sampleRate channelCount bits preferredBufferFrames)
        = (w.new.1, (openStream lib w.new.2 {} sampleRate channelCount bits
            preferredBufferFrames).2.2.store w.new.1
            (openStream lib w.new.2 {} sampleRate channelCount bits
              preferredBufferFrames).2.1) := by
      unfold nativeCreate
      rw [if_neg hguard]
      simp only []
      rw [if_neg (by simp [htrue])]
    rw [hval]
    simp only []
    rw [lookup_store_new w _ _ hheap, h2]
  · intro h1 h2
    rw [hres, if_pos]
    apply hbad
    left
    rw [if_neg h1]
    exact h2

theorem nativeCreate_open_attempts_witness :
    (0 : Int) < 48000 ∧ (0 : Int) < 2 ∧
    (simOboe.openStream (makeBuilder 48000 2 16) simWorldPlaying.device).1 ≠ Result.OK ∧
    openAttempts ((nativeCreate simOboe simWorldPlaying 48000 2 16 0).2.callsSince
        simWorldPlaying)
      = [makeBuilder 48000 2 16,
          { makeBuilder 48000 2 16 with sharingMode := SharingMode.Shared }] ∧
    (nativeCreate simOboe simWorldPlaying 48000 2 16 0).2.device
      = (simOboe.openStream { makeBuilder 48000 2 16 with sharingMode := SharingMode.Shared }
          (simOboe.openStream (makeBuilder 48000 2 16) simWorldPlaying.device).2.2).2.2 :=
  have h := nativeCreate_open_attempts simOboe simWorldPlaying 48000 2 16 0
    (simOboe.openStream (makeBuilder 48000 2 16) simWorldPlaying.device)
    (simOboe.openStream { makeBuilder 48000 2 16 with sharingMode := SharingMode.Shared }
      (simOboe.openStream (makeBuilder 48000 2 16) simWorldPlaying.device).2.2)
    (by decide) (by decide) rfl rfl
  ⟨by decide, by decide, by decide, h.2.1, h.2.2.1⟩

/-- The fallback on the simulated device whose exclusive mode is taken: the
shared-mode stream is the one behind the new handle `2`, and the device counts
two open streams. -/
theorem nativeCreate_fallback_scenario :
    (nativeCreate simOboe simWorldPlaying 48000 2 16 0).1 = 2 ∧
    ((nativeCreate simOboe simWorldPlaying 48000 2 16 0).2.lookup 2).map
      (fun p => p.stream.map (fun s => s.sharingMode)) = some (some SharingMode.Shared) ∧
    (nativeCreate simOboe simWorldPlaying 48000 2 16 0).2.device.openStreams = 2 := by
  decide

/-- The operation `nativeCreate` never calls `close`, whatever the library does. -/
theorem nativeCreate_never_closes (lib : Oboe ω σ) (w : World ω σ)
    (sampleRate channelCount bits preferredBufferFrames : Int) :
    Call.close ∉ (nativeCreate lib w sampleRate channelCount bits
      preferredBufferFrames).2.callsSince w := by
  by_cases hguard : sampleRate ≤ 0 ∨ channelCount ≤ 0
  · unfold nativeCreate
    rw [if_pos hguard]
    simp [World.callsSince]
  · obtain ⟨rest, hcalls, -, hrest⟩ := openStream_calls lib w.new.2 {} sampleRate channelCount
      bits preferredBufferFrames
    obtain ⟨tail, hmade, htail⟩ := nativeCreate_calls lib w sampleRate channelCount bits
      preferredBufferFrames hguard
    have hw : w.new.2.calls = w.calls := rfl
    rw [hw] at hcalls
    unfold World.callsSince
    rw [hmade, hcalls]
    simp only [List.append_assoc, List.drop_left, List.mem_append, not_or]
    refine ⟨?_, hrest, ?_⟩
    · split_ifs <;> simp
    · rcases htail with rfl | rfl <;> simp

/-- When `nativeCreate` fails, the record it allocated is freed: the heap is
the heap from before the call. -/
theorem nativeCreate_zero_frees_record (lib : Oboe ω σ) (w : World ω σ)
    (sampleRate channelCount bits preferredBufferFrames : Int)
    (h : (nativeCreate lib w sampleRate channelCount bits preferredBufferFrames).1 = 0) :
    (nativeCreate lib w sampleRate channelCount bits preferredBufferFrames).2.heap = w.heap := by
  unfold nativeCreate at h ⊢
  simp only [] at h ⊢
  split_ifs at h ⊢
  · rfl
  · exact delete_new_heap w _ _ (openStream_heap lib w.new.2 {} sampleRate channelCount bits
      preferredBufferFrames)
  · exact absurd h (freshAddr_pos w.heap)

/-- C9: `Create(48000, 2, 8, 0)` on an idle simulated device. The stream opens
at the first attempt with a frame size of `0`, so `nativeCreate` returns `0`.
The record is freed, but `close` is not among the calls made and the device
still counts one open stream; `nativeRelease` on a live handle does call
`close` and brings the count back to zero. -/
theorem nativeCreate_zero_frame_size_leaves_stream_open :
    (nativeCreate simOboe simWorld 48000 2 8 0).1 = 0 ∧
    (nativeCreate simOboe simWorld 48000 2 8 0).2.heap = [] ∧
    (nativeCreate simOboe simWorld 48000 2 8 0).2.calls
      = [Call.openStream (makeBuilder 48000 2 8), Call.getBytesPerFrame, Call.dropRef] ∧
    Call.close ∉ (nativeCreate simOboe simWorld 48000 2 8 0).2.calls ∧
    (nativeCreate simOboe simWorld 48000 2 8 0).2.device.openStreams = 1 ∧
    (nativeRelease simOboe simWorldPlaying 1).map (fun w => (w.calls, w.device.openStreams))
      = some ([Call.close, Call.dropRef], 0) := by
  decide

/-! ## Invalid handles -/

/-- C8: on the null handle, or a live handle whose record holds no stream, every
operation gives its failure result and leaves the world as it was (no call is
made, nothing is stored); `nativeRelease` of the null handle does nothing. -/
theorem invalid_handle_fails (lib : Oboe ω σ) (env : JNIEnv) (w : World ω σ) (handle : Nat)
    (data outTimestamp outInfo : Option (List Int)) (offset size frames : Int)
    (hinv : handle = 0 ∨ ∃ player, w.lookup handle = some player ∧ player.stream = none) :
    nativeStart lib w handle = some (false, w) ∧
    nativeWrite lib env w handle data offset size = some (-1, w) ∧
    nativeGetTimestamp lib w handle outTimestamp = some (false, outTimestamp, w) ∧
    nativeGetStreamInfo lib w handle outInfo = some (false, outInfo, w) ∧
    nativeSetBufferSizeInFrames lib w handle frames = some (-1, w) ∧
    nativeStop lib w handle = some w ∧
    nativeRelease lib w 0 = some w := by
  rcases hinv with rfl | ⟨player, hl, hs⟩
  · simp [nativeStart, nativeWrite, nativeGetTimestamp, nativeGetStreamInfo,
      nativeSetBufferSizeInFrames, nativeStop, nativeRelease]
  · by_cases h0 : handle = 0 <;>
      simp [nativeStart, nativeWrite, nativeGetTimestamp, nativeGetStreamInfo,
        nativeSetBufferSizeInFrames, nativeStop, nativeRelease, h0, hl, hs]

theorem invalid_handle_fails_witness :
    ((1 : Nat) = 0 ∨ ∃ player, simWorldNullStream.lookup 1 = some player ∧ player.stream = none) ∧
    nativeStart simOboe simWorldNullStream 1 = some (false, simWorldNullStream) ∧
    nativeWrite simOboe simEnv simWorldNullStream 1 (some [0, 0, 0, 0]) 0 4
      = some (-1, simWorldNullStream) ∧
    nativeGetTimestamp simOboe simWorldNullStream 1 (some [77, 77])
      = some (false, some [77, 77], simWorldNullStream) ∧
    nativeGetStreamInfo simOboe simWorldNullStream 1 (some [77, 77, 77, 77, 77, 77, 77])
      = some (false, some [77, 77, 77, 77, 77, 77, 77], simWorldNullStream) ∧
    nativeSetBufferSizeInFrames simOboe simWorldNullStream 1 192
      = some (-1, simWorldNullStream) ∧
    nativeStop simOboe simWorldNullStream 1 = some simWorldNullStream ∧
    nativeRelease simOboe simWorldNullStream 0 = some simWorldNullStream :=
  ⟨Or.inr ⟨_, rfl, rfl⟩,
    invalid_handle_fails simOboe simEnv simWorldNullStream 1 (some [0, 0, 0, 0]) (some [77, 77])
      (some [77, 77, 77, 77, 77, 77, 77]) 0 4 192 (Or.inr ⟨_, rfl, rfl⟩)⟩

/-! ## Output arrays -/

/-- C7: on a null or live handle, `nativeGetTimestamp` with an array shorter
than 2 and `nativeGetStreamInfo` with an array shorter than 7 return `false`
with the array and the world as they were; and on a valid handle whose
timestamp query fails `nativeGetTimestamp` returns `false` with the array as
it was. -/
theorem short_or_failed_output_untouched (lib : Oboe ω σ) (w : World ω σ) (handle : Nat)
    (out : List Int)
    (hlive : handle = 0 ∨ ∃ player, w.lookup handle = some player) :
    (out.length < 2 → nativeGetTimestamp lib w handle (some out) = some (false, some out, w)) ∧
    (out.length < 7 → nativeGetStreamInfo lib w handle (some out) = some (false, some out, w)) ∧
    (∀ player s, handle ≠ 0 → w.lookup handle = some player → player.stream = some s →
      2 ≤ out.length → (lib.getTimestamp s).1 ≠ Result.OK →
      nativeGetTimestamp lib w handle (some out)
        = some (false, some out, w.log Call.getTimestamp)) := by
  refine ⟨?_, ?_, ?_⟩
  · intro hlen
    rcases hlive with rfl | ⟨player, hl⟩
    · simp [nativeGetTimestamp]
    · by_cases h0 : handle = 0
      · simp [nativeGetTimestamp, h0]
      · cases hs : player.stream <;> simp [nativeGetTimestamp, h0, hl, hs, hlen]
  · intro hlen
    rcases hlive with rfl | ⟨player, hl⟩
    · simp [nativeGetStreamInfo]
    · by_cases h0 : handle = 0
      · simp [nativeGetStreamInfo, h0]
      · cases hs : player.stream <;> simp [nativeGetStreamInfo, h0, hl, hs, hlen]
  · intro player s h0 hl hs hlen hfail
    have hlen' : ¬ out.length < 2 := by omega
    simp [nativeGetTimestamp, h0, hl, hs, hlen', hfail]

theorem short_or_failed_output_untouched_witness :
    ((1 : Nat) = 0 ∨ ∃ player, simWorldPlaying.lookup 1 = some player) ∧
    nativeGetTimestamp simOboe simWorldPlaying 1 (some [77])
      = some (false, some [77], simWorldPlaying) ∧
    nativeGetStreamInfo simOboe simWorldPlaying 1 (some [77])
      = some (false, some [77], simWorldPlaying) ∧
    nativeGetTimestamp simOboe simWorldStopped 1 (some [77, 78])
      = some (false, some [77, 78], simWorldStopped.log Call.getTimestamp) :=
  ⟨Or.inr ⟨_, rfl⟩,
    (short_or_failed_output_untouched simOboe simWorldPlaying 1 [77] (Or.inr ⟨_, rfl⟩)).1
      (by decide),
    (short_or_failed_output_untouched simOboe simWorldPlaying 1 [77] (Or.inr ⟨_, rfl⟩)).2.1
      (by decide),
    (short_or_failed_output_untouched simOboe simWorldStopped 1 [77, 78]
      (Or.inr ⟨_, rfl⟩)).2.2 _ { simStream with started := false } (by decide) rfl rfl
      (by decide) (by decide)⟩

/-- On a stream that has not been started the simulated timestamp query fails,
and the sentinel values stay in the array. -/
theorem nativeGetTimestamp_failed_query_scenario :
    nativeGetTimestamp simOboe simWorldStopped 1 (some [77, 78])
      = some (false, some [77, 78], simWorldStopped.log Call.getTimestamp) ∧
    (nativeGetTimestamp simOboe simWorldPlaying 1 (some [77, 78])).map (fun r => (r.1, r.2.1))
      = some (true, some [0, 0]) := by
  decide

/-! ## Buffer size -/

theorem bufferSizeRequests_append (xs ys : List Call) :
    bufferSizeRequests (xs ++ ys) = bufferSizeRequests xs ++ bufferSizeRequests ys := by
  induction xs with
  | nil => rfl
  | cons x xs ih => cases x <;> simp [bufferSizeRequests, ih]

/-- C5: on a valid handle `nativeSetBufferSizeInFrames(handle, 0)` returns the
buffer size the stream reports before the call; the only call made is that
query, no buffer size is requested, and the heap (with the stream state in the
record) and the device are as before. -/
theorem setBufferSize_zero_is_query (lib : Oboe ω σ) (w : World ω σ) (handle : Nat)
    (player : OboePlayer σ) (s : σ)
    (h0 : handle ≠ 0) (hl : w.lookup handle = some player) (hs : player.stream = some s) :
    ∃ w', nativeSetBufferSizeInFrames lib w handle 0
        = some (lib.getBufferSizeInFrames s, w') ∧
      w'.callsSince w = [Call.getBufferSizeInFrames] ∧
      bufferSizeRequests (w'.callsSince w) = [] ∧
      w'.heap = w.heap ∧ w'.device = w.device ∧
      w'.lookup handle = some player := by
  refine ⟨w.log Call.getBufferSizeInFrames, ?_, ?_, ?_, rfl, rfl, hl⟩
  · simp [nativeSetBufferSizeInFrames, h0, hl, hs]
  · simp [World.callsSince]
  · simp [World.callsSince, bufferSizeRequests]

theorem setBufferSize_zero_is_query_witness :
    (1 : Nat) ≠ 0 ∧
    simWorldPlaying.lookup 1 = some { stream := some simStream, bytesPerFrame := 4 } ∧
    ∃ w', nativeSetBufferSizeInFrames simOboe simWorldPlaying 1 0
        = some (simOboe.getBufferSizeInFrames simStream, w') ∧
      w'.callsSince simWorldPlaying = [Call.getBufferSizeInFrames] ∧
      bufferSizeRequests (w'.callsSince simWorldPlaying) = [] ∧
      w'.heap = simWorldPlaying.heap ∧ w'.device = simWorldPlaying.device ∧
      w'.lookup 1 = some { stream := some simStream, bytesPerFrame := 4 } :=
  ⟨by decide, rfl,
    setBufferSize_zero_is_query simOboe simWorldPlaying 1
      { stream := some simStream, bytesPerFrame := 4 } simStream (by decide) rfl rfl⟩

/-- With the simulated library, which keeps a request within the capacity, a
request of 2000 frames on a stream of capacity 1000 returns 1000. -/
theorem setBufferSize_above_capacity_scenario :
    (nativeSetBufferSizeInFrames simOboe simWorldPlaying 1 2000).map
      (fun r => (r.1, bufferSizeRequests r.2.calls)) = some (1000, [1000]) := by
  decide

/-! ## Writing -/

/-- When `offset + size` fits 32 bits and exceeds the array length,
`nativeWrite` returns `-1` and makes no call. -/
theorem nativeWrite_out_of_range (lib : Oboe ω σ) (env : JNIEnv) (w : World ω σ) (handle : Nat)
    (bytes : List Int) (offset size : Int)
    (hlive : handle = 0 ∨ ∃ player, w.lookup handle = some player)
    (hfit : offset + size ≤ 2147483647) (hrange : offset + size > bytes.length) :
    nativeWrite lib env w handle (some bytes) offset size = some (-1, w) := by
  rcases hlive with rfl | ⟨player, hl⟩
  · simp [nativeWrite]
  · by_cases h0 : handle = 0
    · simp [nativeWrite, h0]
    · have hw : wrap32 (offset + size) = offset + size :=
        wrap32_of_isInt32 ⟨by omega, hfit⟩
      cases hs : player.stream with
      | none => simp [nativeWrite, h0, hl, hs]
      | some s =>
        simp only [nativeWrite, h0, hl, hs, if_false, hw]
        split_ifs <;> rfl

/-- C1: a write at offset `2147483647` of size `4` into an array of 8 bytes.
The mathematical sum exceeds the length, but the 32-bit sum is negative, the
range check passes, and one frame is offered to the stream: the result is `4`,
not `-1`. -/
theorem nativeWrite_offset_overflow_reaches_stream :
    isInt32 2147483647 ∧ isInt32 4 ∧
    (2147483647 : Int) + 4 > (([0, 0, 0, 0, 0, 0, 0, 0] : List Int).length : Int) ∧
    wrap32 (2147483647 + 4) = -2147483645 ∧
    (nativeWrite simOboe simEnv simWorldPlaying 1 (some [0, 0, 0, 0, 0, 0, 0, 0])
        2147483647 4).map (fun r => (r.1, r.2.calls))
      = some (4, [Call.write 2147483647 1 1000000000]) := by
  decide

/-- C2: on a valid handle with frame size `b > 0` and arguments that pass the
checks, `nativeWrite` makes one call, a write of `size / b` frames; when the
stream accepts `k` frames, `0 ≤ k ≤ size / b`, the result is `k * b`, a
multiple of `b`, and it is `size` when `b` divides `size` and every frame is
accepted. -/
theorem nativeWrite_whole_frames (lib : Oboe ω σ) (env : JNIEnv) (w : World ω σ) (handle : Nat)
    (player : OboePlayer σ) (s : σ) (bytes raw : List Int) (offset size : Int)
    (h0 : handle ≠ 0) (hl : w.lookup handle = some player) (hs : player.stream = some s)
    (hb : 0 < player.bytesPerFrame)
    (hsize : 0 < size) (hsize32 : size ≤ 2147483647) (hoff : 0 ≤ offset)
    (hcheck : wrap32 (offset + size) ≤ bytes.length)
    (hraw : env.getByteArrayElements bytes = some raw) :
    ∃ r w', nativeWrite lib env w handle (some bytes) offset size = some (r, w') ∧
      w'.callsSince w = [Call.write offset (size / player.bytesPerFrame) 1000000000] ∧
      ∀ k, (lib.write s (raw.drop offset.toNat) (size / player.bytesPerFrame) 1000000000).1
            = ResultWithValue.value k →
          0 ≤ k → k ≤ size / player.bytesPerFrame →
        r = k * player.bytesPerFrame ∧ player.bytesPerFrame ∣ r ∧
        (player.bytesPerFrame ∣ size → k = size / player.bytesPerFrame → r = size) := by
  have hb0 : ¬ player.bytesPerFrame ≤ 0 := by omega
  have hs0 : ¬ size ≤ 0 := by omega
  have ho0 : ¬ offset < 0 := by omega
  have hc0 : ¬ wrap32 (offset + size) > bytes.length := by omega
  have hdiv : Int.tdiv size player.bytesPerFrame = size / player.bytesPerFrame :=
    Int.tdiv_eq_ediv (le_of_lt hsize) (le_of_lt hb)
  have hq0 : 0 ≤ size / player.bytesPerFrame := Int.ediv_nonneg (le_of_lt hsize) (le_of_lt hb)
  have hqle : size / player.bytesPerFrame * player.bytesPerFrame ≤ size :=
    Int.ediv_mul_le size (by omega)
  have hqs : size / player.bytesPerFrame ≤ size := by
    have : size / player.bytesPerFrame * 1 ≤ size / player.bytesPerFrame * player.bytesPerFrame :=
      Int.mul_le_mul_of_nonneg_left (by omega) hq0
    omega
  have hframes : wrap32 (Int.tdiv size player.bytesPerFrame) = size / player.bytesPerFrame := by
    rw [hdiv]
    exact wrap32_of_isInt32 ⟨by omega, by omega⟩
  cases hr : (lib.write s (raw.drop offset.toNat) (size / player.bytesPerFrame) 1000000000).1 with
  | error e =>
    refine ⟨-1,
      (w.store handle
        { player with
          stream := some (lib.write s (raw.drop offset.toNat)
            (size / player.bytesPerFrame) 1000000000).2 }).log
        (Call.write offset (size / player.bytesPerFrame) 1000000000), ?_, ?_, ?_⟩
    · simp only [nativeWrite, h0, hl, hs, hb0, hs0, ho0, hc0, hraw, hframes, hr, if_false]
    · simp [World.callsSince]
    · intro k hk; cases hk
  | value v =>
    refine ⟨wrap32 (v * player.bytesPerFrame),
      (w.store handle
        { player with
          stream := some (lib.write s (raw.drop offset.toNat)
            (size / player.bytesPerFrame) 1000000000).2 }).log
        (Call.write offset (size / player.bytesPerFrame) 1000000000), ?_, ?_, ?_⟩
    · simp only [nativeWrite, h0, hl, hs, hb0, hs0, ho0, hc0, hraw, hframes, hr, if_false]
    · simp [World.callsSince]
    · intro k hk hk0 hkle
      cases hk
      have hvb : v * player.bytesPerFrame
          ≤ size / player.bytesPerFrame * player.bytesPerFrame :=
        Int.mul_le_mul_of_nonneg_right hkle (le_of_lt hb)
      have hvb0 : 0 ≤ v * player.bytesPerFrame := Int.mul_nonneg hk0 (le_of_lt hb)
      have hwrap : wrap32 (v * player.bytesPerFrame) = v * player.bytesPerFrame :=
        wrap32_of_isInt32 ⟨by omega, by omega⟩
      refine ⟨hwrap, ?_, ?_⟩
      · rw [hwrap]
        exact Dvd.intro_left v rfl
      · intro hdvd hall
        rw [hwrap, hall]
        exact Int.ediv_mul_cancel hdvd

theorem nativeWrite_whole_frames_witness :
    (1 : Nat) ≠ 0 ∧ (0 : Int) < 4 ∧ (0 : Int) < 960 ∧ (4 : Int) ∣ 960 ∧
    ∃ r w', nativeWrite simOboe simEnv simWorldPlaying 1 (some (List.replicate 960 0)) 0 960
        = some (r, w') ∧
      w'.callsSince simWorldPlaying = [Call.write 0 (960 / 4) 1000000000] ∧
      ∀ k, (simOboe.write simStream ((List.replicate 960 (0 : Int)).drop (0 : Int).toNat)
            (960 / 4) 1000000000).1 = ResultWithValue.value k →
          0 ≤ k → k ≤ 960 / 4 →
        r = k * 4 ∧ (4 : Int) ∣ r ∧ ((4 : Int) ∣ 960 → k = 960 / 4 → r = 960) :=
  ⟨by decide, by decide, by decide, by decide,
    nativeWrite_whole_frames simOboe simEnv simWorldPlaying 1
      { stream := some simStream, bytesPerFrame := 4 } simStream (List.replicate 960 0)
      (List.replicate 960 0) 0 960 (by decide) rfl rfl (by decide) (by decide) (by decide)
      (by decide) (by rw [List.length_replicate]; decide) rfl⟩

set_option maxRecDepth 8192 in
/-- The scenario of the specification: a write of 960 bytes of silence on a
started stereo 16-bit stream offers 240 frames and returns 960. -/
theorem nativeWrite_scenario :
    (nativeWrite simOboe simEnv simWorldPlaying 1 (some (List.replicate 960 0)) 0 960).map
      (fun r => (r.1, r.2.calls)) = some (960, [Call.write 0 240 1000000000]) := by
  decide

end OboePlayerJNI
